import Mathlib

/-
  Verification of the terminal todo-list manager (src/todo.py).

  Shallow embedding conventions:
  * Python `datetime` values are modelled by `DateTime` (proleptic Gregorian
    calendar, minute resolution).  No claim depends on sub-minute precision:
    the only arithmetic the program performs on datetimes is whole-day
    subtraction (`timedelta.days`, a floor) and adding whole days.
  * Python integers are `Int`/`Nat`; Python floor-style `%`/`//` on positive
    moduli correspond to `Int.emod`/`Int.fdiv`.
  * Fallible Python code is modelled with `Except PyError`; exceptions that
    the source catches are resolved inside the corresponding definition,
    exceptions it does not catch surface as `Except.error`.
  * The model's calendar is unbounded, whereas Python `datetime` is restricted
    to years 1..9999 (outside that range `datetime` arithmetic raises
    `OverflowError`).  No claim below involves dates outside that range.
-/

set_option autoImplicit false

/-- Python exceptions that the embedded fragments can raise and do not catch. -/
inductive PyError where
  | keyError (key : String)
  | typeError
  | indexError
deriving DecidableEq, Repr

/- ### Character and digit utilities (for `strptime`-style parsing) -/

/-- `'0' ≤ c ≤ '9'`, as in the `\d` class used by CPython `_strptime`. -/
def isDigitChar (c : Char) : Bool := '0' ≤ c && c ≤ '9'

/-- Numeric value of a digit character. -/
def digitVal (c : Char) : Nat := c.toNat - 48

def parseDigitsAux : List Char → Nat → Option Nat
  | [], acc => some acc
  | c :: cs, acc => if isDigitChar c then parseDigitsAux cs (acc * 10 + digitVal c) else none

/-- Parse a non-empty all-digit token to its value; `none` otherwise. -/
def parseDigits : List Char → Option Nat
  | [] => none
  | c :: cs => parseDigitsAux (c :: cs) 0

/-- Split a character list on a separator character, keeping empty chunks,
like Python `str.split("-")` restricted to a one-character separator. -/
def splitOnChar (sep : Char) : List Char → List (List Char)
  | [] => [[]]
  | c :: cs =>
    if c = sep then [] :: splitOnChar sep cs
    else
      match splitOnChar sep cs with
      | [] => [[c]]
      | t :: ts => (c :: t) :: ts

/-- The six ASCII whitespace characters recognised by Python `str.split()`. -/
def pyIsSpace (c : Char) : Bool :=
  c = ' ' || c = '\t' || c = '\n' || c = '\r' || c = '\x0b' || c = '\x0c'

def pySplitWsAux : List Char → List Char → List (List Char)
  | [], acc => if acc.isEmpty then [] else [acc.reverse]
  | c :: cs, acc =>
    if pyIsSpace c then
      if acc.isEmpty then pySplitWsAux cs [] else acc.reverse :: pySplitWsAux cs []
    else pySplitWsAux cs (c :: acc)

/-- Python `str.split()` with no argument: split on whitespace runs,
discarding empty tokens. -/
def pySplitWs (cs : List Char) : List (List Char) := pySplitWsAux cs []

def pyIntDigits : List Char → Nat → Option Nat
  | [], acc => some acc
  | '_' :: c :: cs, acc =>
    if isDigitChar c then pyIntDigits cs (acc * 10 + digitVal c) else none
  | ['_'], _ => none
  | c :: cs, acc => if isDigitChar c then pyIntDigits cs (acc * 10 + digitVal c) else none

/-- Python `int(s)` on a whitespace-free token: optional sign, then ASCII
digits with single underscores allowed between digits.  (The tokens reaching
`int` in the source come out of `str.split()`, so the surrounding-whitespace
stripping that `int` also performs is vacuous here; non-ASCII digits are not
modelled.)  Returns `none` where Python raises `ValueError`. -/
def pyInt (s : List Char) : Option Int :=
  match s with
  | '-' :: c :: cs =>
    if isDigitChar c then (pyIntDigits cs (digitVal c)).map (fun n => -(n : Int)) else none
  | '+' :: c :: cs =>
    if isDigitChar c then (pyIntDigits cs (digitVal c)).map (fun n => (n : Int)) else none
  | c :: cs => if isDigitChar c then (pyIntDigits cs (digitVal c)).map (fun n => (n : Int)) else none
  | [] => none

/- ### Gregorian calendar arithmetic (model of Python `datetime`) -/

/-- Gregorian leap-year rule (as used by Python `calendar`/`datetime`). -/
def isLeap (y : Int) : Bool := y % 4 = 0 && (y % 100 ≠ 0 || y % 400 = 0)

/-- Days in a month of a given year. -/
def daysInMonth (y : Int) (m : Nat) : Nat :=
  if m = 2 then (if isLeap y then 29 else 28)
  else if m = 4 ∨ m = 6 ∨ m = 9 ∨ m = 11 then 30
  else 31

/-- A Python `datetime`, at minute resolution: calendar date plus
minute-of-day (`0 ≤ minute < 1440` for values arising from the program). -/
structure DateTime where
  year : Int
  month : Nat
  day : Nat
  minute : Nat
deriving DecidableEq, Repr

/-- Days since 1970-01-01 of a civil date (Howard Hinnant's `days_from_civil`
algorithm, as implemented by every proleptic-Gregorian datetime library). -/
def daysFromCivil (dt : DateTime) : Int :=
  let y : Int := if dt.month ≤ 2 then dt.year - 1 else dt.year
  let era : Int := Int.fdiv y 400
  let yoe : Int := y - era * 400
  let mp : Int := (Int.ofNat dt.month + 9) % 12
  let doy : Int := Int.fdiv (153 * mp + 2) 5 + Int.ofNat dt.day - 1
  let doe : Int := yoe * 365 + Int.fdiv yoe 4 - Int.fdiv yoe 100 + doy
  era * 146097 + doe - 719468

/-- Inverse of `daysFromCivil` (Hinnant's `civil_from_days`). -/
def civilFromDays (z0 : Int) : Int × Nat × Nat :=
  let z : Int := z0 + 719468
  let era : Int := Int.fdiv z 146097
  let doe : Int := z - era * 146097
  let yoe : Int :=
    Int.fdiv (doe - Int.fdiv doe 1460 + Int.fdiv doe 36524 - Int.fdiv doe 146096) 365
  let y : Int := yoe + era * 400
  let doy : Int := doe - (365 * yoe + Int.fdiv yoe 4 - Int.fdiv yoe 100)
  let mp : Int := Int.fdiv (5 * doy + 2) 153
  let d : Int := doy - Int.fdiv (153 * mp + 2) 5 + 1
  let m : Int := if mp < 10 then mp + 3 else mp - 9
  (if m ≤ 2 then y + 1 else y, m.toNat, d.toNat)

/-- `dt + timedelta(days = n)`: Python timedelta addition preserves the
time of day. -/
def addDays (dt : DateTime) (n : Int) : DateTime :=
  match civilFromDays (daysFromCivil dt + n) with
  | (y, m, d) => { year := y, month := m, day := d, minute := dt.minute }

/-- Minutes since the epoch; the linear view of a `DateTime`. -/
def toMinutes (dt : DateTime) : Int := daysFromCivil dt * 1440 + Int.ofNat dt.minute

/-- `(a - b).days` for Python datetimes: `timedelta` normalisation makes
`.days` the floor of the difference in days. -/
def deltaDays (a b : DateTime) : Int := Int.fdiv (toMinutes a - toMinutes b) 1440

/- ### parse_deadline (src/todo.py lines 74-100) -/

/-- `strptime(s, "%Y-%m-%d")` given the three `-`-separated tokens.
CPython `_strptime` compiles `%Y` to exactly four digits and `%m`/`%d` to
one- or two-digit tokens valued 1..12 / 1..31 (`00` is not matched), requires
the whole string to be consumed, and the `datetime` constructor then rejects
year 0 and days beyond the month length. -/
def ymdFromToks (ys ms ds : List Char) : Option DateTime :=
  match parseDigits ys, parseDigits ms, parseDigits ds with
  | some y, some m, some d =>
    if ys.length = 4 ∧ 1 ≤ y ∧ ms.length ≤ 2 ∧ 1 ≤ m ∧ m ≤ 12 ∧ ds.length ≤ 2 ∧
        1 ≤ d ∧ d ≤ 31 ∧ d ≤ daysInMonth (Int.ofNat y) m
    then some ⟨Int.ofNat y, m, d, 0⟩ else none
  | _, _, _ => none

/-- First branch of `parse_deadline`: `datetime.strptime(s, "%Y-%m-%d")`. -/
def parseYMD (cs : List Char) : Option DateTime :=
  match splitOnChar '-' cs with
  | [ys, ms, ds] => ymdFromToks ys ms ds
  | _ => none

/-- `strptime(s, "%m-%d")` (default year 1900) followed by
`.replace(year = now.year)`.  The `replace` revalidation cannot fail: a day
valid for 1900 (a non-leap year) is valid in every year. -/
def mdFromToks (nowYear : Int) (ms ds : List Char) : Option DateTime :=
  match parseDigits ms, parseDigits ds with
  | some m, some d =>
    if ms.length ≤ 2 ∧ 1 ≤ m ∧ m ≤ 12 ∧ ds.length ≤ 2 ∧ 1 ≤ d ∧ d ≤ 31 ∧
        d ≤ daysInMonth 1900 m
    then some ⟨nowYear, m, d, 0⟩ else none
  | _, _ => none

/-- Second branch of `parse_deadline`: `datetime.strptime(s, "%m-%d")`
with the year replaced by the current year. -/
def parseMD (nowYear : Int) (cs : List Char) : Option DateTime :=
  match splitOnChar '-' cs with
  | [ms, ds] => mdFromToks nowYear ms ds
  | _ => none

/-- Third branch of `parse_deadline`: if the string starts with `"in "`,
take the first whitespace token of the remainder, convert with `int`, and add
that many days to `now`.  `ValueError` (non-integer token) and `IndexError`
(no token) are caught by the source and collapse to `None`. -/
def inDaysBranch (now : DateTime) (cs : List Char) : Option DateTime :=
  match cs with
  | 'i' :: 'n' :: ' ' :: rest =>
    match pySplitWs rest with
    | [] => none
    | tok :: _ =>
      match pyInt tok with
      | none => none
      | some n => some (addDays now n)
  | _ => none

/-- `parse_deadline` (src/todo.py lines 74-100).  A `None`/empty argument is
falsy (`if not deadline_str`), then the three grammars are tried in order. -/
def parse_deadline (now : DateTime) : Option String → Option DateTime
  | none => none
  | some s =>
    if s.data = [] then none
    else
      match parseYMD s.data with
      | some dt => some dt
      | none =>
        match parseMD now.year s.data with
        | some dt => some dt
        | none => inDaysBranch now s.data

/- ### get_deadline_color (src/todo.py lines 103-122) -/

/-- The curses color constants `get_deadline_color` can return. -/
inductive Color where
  | white
  | red
  | yellow
  | cyan
  | green
deriving DecidableEq, Repr

/-- `get_deadline_color` (src/todo.py lines 103-122): parse the deadline, a
failed parse is white; otherwise classify `(deadline - now).days`. -/
def get_deadline_color (now : DateTime) (deadline_str : Option String) : Color :=
  match parse_deadline now deadline_str with
  | none => Color.white
  | some deadline =>
    let days := deltaDays deadline now
    if days < 0 then Color.red
    else if days ≤ 2 then Color.yellow
    else if days ≤ 7 then Color.cyan
    else Color.green

/- ### TodoItem and TodoList (src/todo.py lines 10-71) -/

/-- A task, as held by the typed store operations.  `add`/`edit` only ever
supply a `String` text, a `Bool` done flag and an `Option String` deadline, so
the in-memory tasks of every state reachable through the store API fit this
record.  (Tasks decoded from arbitrary JSON are modelled separately, below.) -/
structure TodoItem where
  text : String
  done : Bool
  deadline : Option String
deriving DecidableEq, Repr

/-- The `TodoItem.__init__` constructor: `self.deadline = deadline if deadline
else None` normalises a falsy deadline (absent or empty string) to `None`. -/
def TodoItem.make (text : String) (done : Bool) (deadline : Option String) : TodoItem :=
  { text := text, done := done,
    deadline :=
      match deadline with
      | some s => if s = "" then none else some s
      | none => none }

/-- In-memory store state: tasks plus cursor.  The storage path is a constant
and is not part of the model. -/
structure TodoList where
  todos : List TodoItem
  cursor_pos : Nat
deriving DecidableEq, Repr

/-- Replace the element at an index, in place (`self.todos[index].field = v`);
out-of-range indices leave the list unchanged (the source always guards). -/
def listModify {α : Type} (f : α → α) : Nat → List α → List α
  | _, [] => []
  | 0, x :: xs => f x :: xs
  | n + 1, x :: xs => x :: listModify f n xs

/-- `del self.todos[index]` for an index the source has bounds-checked. -/
def listRemove {α : Type} : Nat → List α → List α
  | _, [] => []
  | 0, _ :: xs => xs
  | n + 1, x :: xs => x :: listRemove n xs

/-- Each mutation returns the new state and whether `save()` was called. -/
def TodoList.add (tl : TodoList) (text : String) (deadline : Option String) :
    TodoList × Bool :=
  ({ tl with todos := tl.todos ++ [TodoItem.make text false deadline] }, true)

/-- `toggle` (lines 35-38): flip `done` and save when `0 <= index < len`,
silently no-op otherwise. -/
def TodoList.toggle (tl : TodoList) (index : Int) : TodoList × Bool :=
  if 0 ≤ index ∧ index < (tl.todos.length : Int) then
    ({ tl with todos := listModify (fun t => { t with done := !t.done }) index.toNat tl.todos },
      true)
  else (tl, false)

/-- `delete` (lines 40-45): remove the task, then clamp the cursor with
`max(0, len - 1)` when it fell off the end (`Nat` truncated subtraction is
exactly `max 0 (len - 1)` here), then save; no-op when out of bounds. -/
def TodoList.delete (tl : TodoList) (index : Int) : TodoList × Bool :=
  if 0 ≤ index ∧ index < (tl.todos.length : Int) then
    let todos2 := listRemove index.toNat tl.todos
    let cursor2 := if todos2.length ≤ tl.cursor_pos then todos2.length - 1 else tl.cursor_pos
    ({ todos := todos2, cursor_pos := cursor2 }, true)
  else (tl, false)

/-- `edit` (lines 47-51): overwrite `text` and `deadline` in place — note the
deadline is stored raw, without the constructor's falsy-to-None
normalisation — then save; no-op when out of bounds. -/
def TodoList.edit (tl : TodoList) (index : Int) (new_text : String)
    (new_deadline : Option String) : TodoList × Bool :=
  if 0 ≤ index ∧ index < (tl.todos.length : Int) then
    ({ tl with
        todos := listModify (fun t => { t with text := new_text, deadline := new_deadline })
          index.toNat tl.todos },
      true)
  else (tl, false)

/-- `move_up` (lines 53-55): decrement the cursor unless already 0; no save. -/
def TodoList.move_up (tl : TodoList) : TodoList :=
  if 0 < tl.cursor_pos then { tl with cursor_pos := tl.cursor_pos - 1 } else tl

/-- `move_down` (lines 57-59): increment while `cursor_pos < len(todos) - 1`,
computed in `Int` as Python does (so an empty list compares against `-1`);
no save. -/
def TodoList.move_down (tl : TodoList) : TodoList :=
  if (tl.cursor_pos : Int) < (tl.todos.length : Int) - 1 then
    { tl with cursor_pos := tl.cursor_pos + 1 }
  else tl

/- ### sort_todos_by_days (src/todo.py lines 140-165) -/

/-- Comparison on the `days` sort component: a finite day count or
`float("inf")` for untimed tasks (`none`). -/
def edaysLe : Option Int → Option Int → Bool
  | some a, some b => a ≤ b
  | some _, none => true
  | none, none => true
  | none, some _ => false

/-- `<=` on the composite key `(-priority, days)` used by `list.sort`. -/
def keyLe (a b : Int × Option Int) : Bool :=
  if a.1 < b.1 then true
  else if b.1 < a.1 then false
  else edaysLe a.2 b.2

/-- Insert after every already-placed element that compares `≤`; folding this
over the list in order is a stable sort, extensionally equal to Python's
stable `list.sort` for the total preorder `keyLe`. -/
def insertStable {α : Type} (le : α → α → Bool) (x : α) : List α → List α
  | [] => [x]
  | y :: ys => if le y x then y :: insertStable le x ys else x :: y :: ys

/-- Stable sort modelling Python `list.sort(key = ...)`. -/
def stableSortBy {α : Type} (le : α → α → Bool) (l : List α) : List α :=
  l.foldl (fun acc x => insertStable le x acc) []

/-- `sort_todos_by_days` (lines 140-165): attach `(priority, days, todo, idx)`
to each task — untimed or unparsable deadlines get `(1, inf)`, parsed ones get
days-to-deadline and priority 2 (pending) or 0 (done) — sort stably by
`(-priority, days)`, and return `(todo, original_index)` pairs. -/
def sort_todos_by_days (now : DateTime) (todo_list : TodoList) : List (TodoItem × Nat) :=
  let entries := todo_list.todos.enum.map (fun p =>
    let idx := p.1
    let todo := p.2
    if todo.deadline.getD "" = "" then ((1 : Int), (none : Option Int), (todo, idx))
    else
      match parse_deadline now todo.deadline with
      | some deadline => ((if todo.done then 0 else 2 : Int), some (deltaDays deadline now), (todo, idx))
      | none => ((1 : Int), (none : Option Int), (todo, idx)))
  let sorted := stableSortBy (fun a b => keyLe (-a.1, a.2.1) (-b.1, b.2.1)) entries
  sorted.map (fun e => e.2.2)

/- ### The `x` key dispatch of main's Normal-state loop (src/todo.py 363-377) -/

/-- The mutable state of `main`'s loop that the `x` dispatch touches. -/
structure MainState where
  todo_list : TodoList
  days_mode : Bool
  sorted_by_days : Bool
deriving DecidableEq, Repr

/-- The `elif key == ord("x")` branch of `main` (lines 365-377): build the
display-to-storage index mapping (`idx`), then `toggle(idx[cursor_pos])`.
Subscripting `idx` past its end — which happens exactly when the task list is
empty, since the cursor is then 0 and `idx` has length 0 — raises an
`IndexError` that nothing in `main` catches. -/
def dispatch_x (now : DateTime) (st : MainState) : Except PyError MainState :=
  let idx :=
    if st.sorted_by_days then (sort_todos_by_days now st.todo_list).map (fun p => p.2)
    else List.range st.todo_list.todos.length
  match idx.get? st.todo_list.cursor_pos with
  | none => Except.error PyError.indexError
  | some i =>
    Except.ok { st with todo_list := (TodoList.toggle st.todo_list (Int.ofNat i)).1 }

/- ### JSON persistence layer (src/todo.py lines 16-21, 61-71) -/

/-- JSON values as Python's `json` module materialises them (numbers modelled
as integers; no claim involves fractional numbers). -/
inductive JVal where
  | null
  | bool (b : Bool)
  | num (n : Int)
  | str (s : String)
  | arr (xs : List JVal)
  | obj (fields : List (String × JVal))

/-- Python truthiness of a JSON-decoded value. -/
def pyTruthy : JVal → Bool
  | JVal.null => false
  | JVal.bool b => b
  | JVal.num n => if n = 0 then false else true
  | JVal.str s => if s = "" then false else true
  | JVal.arr xs => !xs.isEmpty
  | JVal.obj fs => !fs.isEmpty

/-- Lookup in a decoded JSON object.  Python's `json` builds a `dict`, where a
duplicated key keeps the last value, hence the reverse-priority search. -/
def lookupLast (fields : List (String × JVal)) (key : String) : Option JVal :=
  match fields with
  | [] => none
  | (k, v) :: rest =>
    match lookupLast rest key with
    | some w => some w
    | none => if k = key then some v else none

/-- A task as decoded by `TodoItem.from_dict` from arbitrary JSON: the
constructor stores whatever values the dict held (no type validation). -/
structure TodoItemDyn where
  text : JVal
  done : JVal
  deadline : JVal

/-- `TodoItem.__init__` on dynamic values: only the deadline is touched
(`deadline if deadline else None`). -/
def TodoItemDyn.make (text done deadline : JVal) : TodoItemDyn :=
  { text := text, done := done,
    deadline := if pyTruthy deadline then deadline else JVal.null }

/-- `TodoItem.from_dict` (lines 19-21): `cls(data["text"], data["done"],
data.get("deadline"))`.  Subscripting a non-dict raises `TypeError`; a
missing key raises `KeyError`; `.get` of a missing key yields `None`.
Neither error is caught by `load`. -/
def from_dict (data : JVal) : Except PyError TodoItemDyn :=
  match data with
  | JVal.obj fields =>
    match lookupLast fields "text" with
    | none => Except.error (PyError.keyError "text")
    | some textV =>
      match lookupLast fields "done" with
      | none => Except.error (PyError.keyError "done")
      | some doneV =>
        Except.ok (TodoItemDyn.make textV doneV ((lookupLast fields "deadline").getD JVal.null))
  | _ => Except.error PyError.typeError

/-- Python iteration over a JSON-decoded value, as used by the comprehension
in `load`: lists yield elements, strings yield one-character strings, dicts
yield their keys, anything else raises `TypeError`. -/
def pyIter : JVal → Except PyError (List JVal)
  | JVal.arr xs => Except.ok xs
  | JVal.str s => Except.ok (s.data.map (fun c => JVal.str (String.mk [c])))
  | JVal.obj fs => Except.ok (fs.map (fun p => JVal.str p.1))
  | _ => Except.error PyError.typeError

/-- The list comprehension `[TodoItem.from_dict(item) for item in data]`:
items decoded left to right, the first uncaught exception propagates. -/
def loadItems : List JVal → Except PyError (List TodoItemDyn)
  | [] => Except.ok []
  | v :: vs =>
    match from_dict v with
    | Except.error e => Except.error e
    | Except.ok it =>
      match loadItems vs with
      | Except.error e => Except.error e
      | Except.ok its => Except.ok (it :: its)

/-- Decoding the parsed JSON document into the task list. -/
def loadFromJson (v : JVal) : Except PyError (List TodoItemDyn) :=
  match pyIter v with
  | Except.error e => Except.error e
  | Except.ok items => loadItems items

/-- What the file at the storage path can present to `load`: no file at all,
bytes that are not valid JSON, or a parsed JSON document. -/
inductive LoadInput where
  | missing
  | badJson
  | json (v : JVal)

/-- `TodoList.load` (lines 65-71): `FileNotFoundError` and `JSONDecodeError`
are caught and give the empty list; any exception thrown while decoding a
successfully parsed document propagates. -/
def load : LoadInput → Except PyError (List TodoItemDyn)
  | LoadInput.missing => Except.ok []
  | LoadInput.badJson => Except.ok []
  | LoadInput.json v => loadFromJson v

/-- `TodoItem.to_dict` (lines 16-17), composed with JSON serialisation:
`json.dump` writes exactly this document and `json.load` reads it back, since
Python round-trips `str`/`bool`/`None`/`list`/`dict` through JSON exactly. -/
def to_dict (t : TodoItem) : JVal :=
  JVal.obj
    [("text", JVal.str t.text), ("done", JVal.bool t.done),
     ("deadline", match t.deadline with | none => JVal.null | some s => JVal.str s)]

/-- `TodoList.save` (lines 61-63): the JSON document written to disk. -/
def saveJson (todos : List TodoItem) : JVal := JVal.arr (todos.map to_dict)

/-- The dynamic view of an in-memory typed task, for comparing a reloaded
list with the list that was saved. -/
def embed (t : TodoItem) : TodoItemDyn :=
  { text := JVal.str t.text, done := JVal.bool t.done,
    deadline := match t.deadline with | none => JVal.null | some s => JVal.str s }

/-- The falsy-deadline normalisation `TodoItem.__init__` applies on reload. -/
def normalizeItem (t : TodoItem) : TodoItem :=
  { t with
    deadline :=
      match t.deadline with
      | some s => if s = "" then none else some s
      | none => none }

/- ### Store-API-reachable states (for the round-trip claim) -/

/-- The four mutating store calls of the round-trip claim. -/
inductive Op where
  | add (text : String) (deadline : Option String)
  | toggle (index : Int)
  | delete (index : Int)
  | edit (index : Int) (new_text : String) (new_deadline : Option String)

def applyOp (tl : TodoList) : Op → TodoList
  | Op.add t d => (TodoList.add tl t d).1
  | Op.toggle i => (TodoList.toggle tl i).1
  | Op.delete i => (TodoList.delete tl i).1
  | Op.edit i t d => (TodoList.edit tl i t d).1

/-- The state built by a call sequence starting from a fresh empty list. -/
def applyOps (ops : List Op) : TodoList :=
  ops.foldl applyOp { todos := [], cursor_pos := 0 }

/- ### Shared concrete data for evaluated claims -/

/-- A fixed "current moment": 2026-10-12, 12:00. -/
def now0 : DateTime := ⟨2026, 10, 12, 720⟩

/-- Task A of the sort-projection scenario: done, due in 1 day. -/
def itemA : TodoItem := ⟨"A", true, some "in 1 days"⟩

/-- Task B: not done, due in 5 days. -/
def itemB : TodoItem := ⟨"B", false, some "in 5 days"⟩

/-- Task C: no deadline. -/
def itemC : TodoItem := ⟨"C", false, none⟩

/-- Task D: not done, due in 1 day. -/
def itemD : TodoItem := ⟨"D", false, some "in 1 days"⟩

/-- The four-task list of the sort-projection scenario, in insertion order
A, B, C, D (storage indices 0..3). -/
def fourTaskList : TodoList := ⟨[itemA, itemB, itemC, itemD], 0⟩

/- ### Helper lemmas about the list primitives -/

theorem listModify_length {α : Type} (f : α → α) (n : Nat) (l : List α) :
    (listModify f n l).length = l.length := by
  induction l generalizing n with
  | nil => cases n <;> rfl
  | cons x xs ih =>
    cases n with
    | zero => rfl
    | succ k => simpa [listModify] using ih k

theorem listRemove_length {α : Type} (n : Nat) (l : List α) (h : n < l.length) :
    (listRemove n l).length = l.length - 1 := by
  induction l generalizing n with
  | nil => simp at h
  | cons x xs ih =>
    cases n with
    | zero => simp [listRemove]
    | succ k =>
      have hk : k < xs.length := by simpa using h
      have hx : 1 ≤ xs.length := Nat.one_le_of_lt (Nat.lt_of_le_of_lt (Nat.zero_le k) hk)
      simp [listRemove, ih k hk]
      omega

/- ### Claim C1 — sort projection on the four-task scenario -/

/-- C1 counterexample: on `[A(done, 1d), B(pending, 5d), C(untimed),
D(pending, 1d)]` the projection does NOT return the claimed order
`[D, B, A, C]`: A is in band 0 (done, timed) and therefore sorts after the
untimed band-1 task C, not before it. -/
theorem c1_counterexample :
    sort_todos_by_days now0 fourTaskList
      ≠ [(itemD, 3), (itemB, 1), (itemA, 0), (itemC, 2)] := by decide

/-- C1 amended: the projection returns `[D, B, C, A]` with original indices
`[3, 1, 2, 0]` — pending timed tasks soonest-first (band 2: D before B), then
the untimed task (band 1: C), then the done timed task (band 0: A) last. -/
theorem c1_sort_amended :
    sort_todos_by_days now0 fourTaskList
      = [(itemD, 3), (itemB, 1), (itemC, 2), (itemA, 0)] := by decide

/- ### Claim C2 — load on absent/corrupt/malformed content -/

/-- C2 counterexample: the file content `[{}]` is valid JSON, so
`json.load` succeeds, and `TodoItem.from_dict({})` then raises a `KeyError`
for `"text"` that `load`'s `except (FileNotFoundError, json.JSONDecodeError)`
clause does not catch — refuting "for every file content ... load produces an
empty task list and does not raise". -/
theorem c2_counterexample :
    load (LoadInput.json (JVal.arr [JVal.obj []]))
      = Except.error (PyError.keyError "text") := rfl

/-- C2 amended: an absent file or content that fails JSON parsing is absorbed
into the empty task list without a propagating error, and valid JSON whose
Python iteration yields no items — the empty array, the empty object, the
empty string — also loads as the empty list; but not every valid JSON content
is absorbed: an array item without the `text` key propagates a `KeyError`
(the counterexample's `[{}]`), and non-iterable JSON such as the number 5
propagates a `TypeError`, since `load` catches only `FileNotFoundError` and
`JSONDecodeError`. -/
theorem c2_load_amended :
    load LoadInput.missing = Except.ok []
      ∧ load LoadInput.badJson = Except.ok []
      ∧ load (LoadInput.json (JVal.arr [])) = Except.ok []
      ∧ load (LoadInput.json (JVal.obj [])) = Except.ok []
      ∧ load (LoadInput.json (JVal.str "")) = Except.ok []
      ∧ load (LoadInput.json (JVal.num 5)) = Except.error PyError.typeError :=
  ⟨rfl, rfl, rfl, rfl, rfl, rfl⟩

/- ### Claim C5 — the `x` key on an empty list -/

/-- C5: pressing `x` in the Normal-state loop with an empty task list is NOT
absorbed as a no-op: `main` evaluates `idx[self.cursor_pos]` with `idx` of
length 0 and cursor 0, raising an uncaught `IndexError` — the code bug the
claim's silent-totality property contradicts (the `e` handler carries the
`if todo_list.todos:` guard that the `x` handler lacks). -/
theorem c5_toggle_empty_crash :
    dispatch_x now0 ⟨⟨[], 0⟩, false, false⟩ = Except.error PyError.indexError
      ∧ dispatch_x now0 ⟨⟨[], 0⟩, false, true⟩ = Except.error PyError.indexError :=
  ⟨rfl, rfl⟩

/- ### Claim C6 — urgency classification -/

/-- C6: `get_deadline_color` selects the tier from the whole-day difference
`(deadline - now).days`: a parsed deadline 10 days out is green (Distant),
5 days out is cyan (Soon), 1 day out is yellow (Urgent), 1 day in the past is
red (Overdue); a missing or unparsable deadline is white (the None tier). -/
theorem c6_classify (now : DateTime) (s : Option String) :
    (parse_deadline now s = none → get_deadline_color now s = Color.white)
      ∧ (∀ dl, parse_deadline now s = some dl →
          (deltaDays dl now = 10 → get_deadline_color now s = Color.green)
            ∧ (deltaDays dl now = 5 → get_deadline_color now s = Color.cyan)
            ∧ (deltaDays dl now = 1 → get_deadline_color now s = Color.yellow)
            ∧ (deltaDays dl now = -1 → get_deadline_color now s = Color.red)) := by
  constructor
  · intro h
    simp [get_deadline_color, h]
  · intro dl h
    refine ⟨fun hd => ?_, fun hd => ?_, fun hd => ?_, fun hd => ?_⟩ <;>
      simp [get_deadline_color, h, hd]

/-- C6 witness: concrete instantiations at `now0`, one per tier, including a
missing and an unparsable deadline for the white tier. -/
theorem c6_witness :
    get_deadline_color now0 (some "in 10 days") = Color.green
      ∧ get_deadline_color now0 (some "in 5 days") = Color.cyan
      ∧ get_deadline_color now0 (some "in 1 days") = Color.yellow
      ∧ get_deadline_color now0 (some "in -1 days") = Color.red
      ∧ get_deadline_color now0 (some "no deadline") = Color.white
      ∧ get_deadline_color now0 none = Color.white := by
  refine ⟨?_, ?_, ?_, ?_, ?_, ?_⟩
  · exact (((c6_classify now0 (some "in 10 days")).2 (addDays now0 10) (by decide)).1) (by decide)
  · exact (((c6_classify now0 (some "in 5 days")).2 (addDays now0 5) (by decide)).2.1) (by decide)
  · exact (((c6_classify now0 (some "in 1 days")).2 (addDays now0 1) (by decide)).2.2.1) (by decide)
  · exact (((c6_classify now0 (some "in -1 days")).2 (addDays now0 (-1)) (by decide)).2.2.2) (by decide)
  · exact (c6_classify now0 (some "no deadline")).1 (by decide)
  · exact (c6_classify now0 none).1 rfl

/- ### Claim C7 — out-of-range toggle/delete/edit are silent no-ops -/

/-- C7: for every index outside `[0, len)` — negative included — `toggle`,
`delete` and `edit` return the state unchanged (tasks and cursor alike) and
report that `save()` was not called.  The three operations are total Lean
functions, matching the source, whose bodies under the failed bounds check
reach no raising operation. -/
theorem c7_out_of_range_noop (tl : TodoList) (i : Int)
    (h : i < 0 ∨ (tl.todos.length : Int) ≤ i) :
    TodoList.toggle tl i = (tl, false)
      ∧ TodoList.delete tl i = (tl, false)
      ∧ (∀ new_text new_deadline, TodoList.edit tl i new_text new_deadline = (tl, false)) := by
  have hng : ¬ (0 ≤ i ∧ i < (tl.todos.length : Int)) := by omega
  refine ⟨?_, ?_, fun t d => ?_⟩ <;>
    simp only [TodoList.toggle, TodoList.delete, TodoList.edit, if_neg hng]

/-- C7 witness: a singleton store with the out-of-range indices 5 and -1. -/
theorem c7_witness :
    TodoList.toggle ⟨[itemC], 0⟩ 5 = (⟨[itemC], 0⟩, false)
      ∧ TodoList.delete ⟨[itemC], 0⟩ 5 = (⟨[itemC], 0⟩, false)
      ∧ TodoList.edit ⟨[itemC], 0⟩ 5 "t" (some "x") = (⟨[itemC], 0⟩, false)
      ∧ TodoList.delete ⟨[itemC], 0⟩ (-1) = (⟨[itemC], 0⟩, false) := by
  have h5 := c7_out_of_range_noop ⟨[itemC], 0⟩ 5 (Or.inr (by decide))
  have hm := c7_out_of_range_noop ⟨[itemC], 0⟩ (-1) (Or.inl (by decide))
  exact ⟨h5.1, h5.2.1, h5.2.2 "t" (some "x"), hm.2.1⟩

/- ### Claim C8 — cursor invariant across all store operations -/

/-- The cursor invariant `0 ≤ cursor < max(1, len(tasks))` (the lower bound
is a `Nat` typing fact). -/
abbrev cursorInv (tl : TodoList) : Prop := tl.cursor_pos < max 1 tl.todos.length

/-- C8: every store operation preserves `0 ≤ cursor < max(1, len(tasks))`;
an in-bounds delete with the cursor on the last task leaves the cursor at
`len - 2` (which is 0 when the list had one task); and the cursor moves clamp
at the two ends rather than wrapping. -/
theorem c8_cursor_invariant (tl : TodoList) (h : cursorInv tl) :
    (∀ text dl, cursorInv (TodoList.add tl text dl).1)
      ∧ (∀ i, cursorInv (TodoList.toggle tl i).1)
      ∧ (∀ i, cursorInv (TodoList.delete tl i).1)
      ∧ (∀ i t dl, cursorInv (TodoList.edit tl i t dl).1)
      ∧ cursorInv (TodoList.move_up tl)
      ∧ cursorInv (TodoList.move_down tl)
      ∧ (∀ i : Int, 0 ≤ i → i < (tl.todos.length : Int) →
          tl.cursor_pos = tl.todos.length - 1 →
          (TodoList.delete tl i).1.cursor_pos = tl.todos.length - 2)
      ∧ (tl.cursor_pos = 0 → TodoList.move_up tl = tl)
      ∧ ((tl.todos.length : Int) - 1 ≤ (tl.cursor_pos : Int) → TodoList.move_down tl = tl) := by
  refine ⟨?_, ?_, ?_, ?_, ?_, ?_, ?_, ?_, ?_⟩
  · intro text dl
    simp only [TodoList.add, cursorInv, List.length_append, List.length_cons, List.length_nil] at *
    omega
  · intro i
    unfold TodoList.toggle
    split
    · simpa [cursorInv, listModify_length] using h
    · exact h
  · intro i
    unfold TodoList.delete
    split
    · next hin =>
      have hlt : i.toNat < tl.todos.length := by omega
      simp only [cursorInv, listRemove_length _ _ hlt]
      split <;> omega
    · exact h
  · intro i t dl
    unfold TodoList.edit
    split
    · simpa [cursorInv, listModify_length] using h
    · exact h
  · unfold TodoList.move_up
    split <;> simp only [cursorInv] at * <;> omega
  · unfold TodoList.move_down
    split
    · next hlt => simp only [cursorInv] at *; omega
    · exact h
  · intro i h0 hlen hcur
    unfold TodoList.delete
    rw [if_pos ⟨h0, hlen⟩]
    have hlt : i.toNat < tl.todos.length := by omega
    simp only [listRemove_length _ _ hlt]
    rw [if_pos (by omega)]
    omega
  · intro hc
    unfold TodoList.move_up
    rw [if_neg (by omega)]
  · intro hc
    unfold TodoList.move_down
    rw [if_neg (by omega)]

/-- C8 witness: a two-task store with the cursor on the last task; in-bounds
`delete 0` moves the cursor to 0 = len - 2, the moves clamp, and every
operation lands inside the invariant. -/
theorem c8_witness :
    cursorInv (TodoList.add ⟨[itemA, itemB], 1⟩ "t" none).1
      ∧ cursorInv (TodoList.toggle ⟨[itemA, itemB], 1⟩ 0).1
      ∧ cursorInv (TodoList.delete ⟨[itemA, itemB], 1⟩ 1).1
      ∧ cursorInv (TodoList.edit ⟨[itemA, itemB], 1⟩ 0 "t" none).1
      ∧ cursorInv (TodoList.move_up ⟨[itemA, itemB], 1⟩)
      ∧ cursorInv (TodoList.move_down ⟨[itemA, itemB], 1⟩)
      ∧ (TodoList.delete ⟨[itemA, itemB], 1⟩ 0).1.cursor_pos = 0
      ∧ TodoList.move_down ⟨[itemA, itemB], 1⟩ = ⟨[itemA, itemB], 1⟩ := by
  have hw := c8_cursor_invariant ⟨[itemA, itemB], 1⟩ (by decide)
  exact ⟨hw.1 "t" none, hw.2.1 0, hw.2.2.1 1, hw.2.2.2.1 0 "t" none, hw.2.2.2.2.1,
    hw.2.2.2.2.2.1, hw.2.2.2.2.2.2.1 0 (by decide) (by decide) rfl,
    hw.2.2.2.2.2.2.2.2 (by decide)⟩

/- ### Claim C3 — save/load round trip -/

theorem from_dict_to_dict (t : TodoItem) :
    from_dict (to_dict t) = Except.ok (embed (normalizeItem t)) := by
  rcases t with ⟨text, done, dl⟩
  cases dl with
  | none => rfl
  | some s =>
    by_cases hs : s = ""
    · subst hs; rfl
    · simp [to_dict, from_dict, lookupLast, TodoItemDyn.make, pyTruthy, embed, normalizeItem, hs]

theorem loadItems_map (l : List TodoItem) :
    loadItems (l.map to_dict) = Except.ok (l.map (fun t => embed (normalizeItem t))) := by
  induction l with
  | nil => rfl
  | cons t ts ih => simp [loadItems, from_dict_to_dict, ih]

theorem loadFromJson_saveJson (l : List TodoItem) :
    loadFromJson (saveJson l) = Except.ok (l.map (fun t => embed (normalizeItem t))) := by
  simp [loadFromJson, saveJson, pyIter, loadItems_map]

theorem normalizeItem_of_ne_empty (t : TodoItem) (h : t.deadline ≠ some "") :
    normalizeItem t = t := by
  rcases t with ⟨text, done, dl⟩
  cases dl with
  | none => rfl
  | some s =>
    have hs : s ≠ "" := fun hs => h (by simp [hs])
    simp [normalizeItem, hs]

/-- The round-trip scenario that breaks exactness: `edit` stores the raw
empty-string deadline, bypassing the constructor normalisation. -/
def opsBad : List Op := [Op.add "a" none, Op.edit 0 "a" (some "")]

/-- C3 counterexample: after `add("a"); edit(0, "a", "")` the stored task has
`deadline = ""`, `save()` writes `"deadline": ""`, and the fresh `load()`
rebuilds the task through `TodoItem.__init__`, which maps the falsy `""` back
to `None` — so the reloaded sequence is not identical to the saved one. -/
theorem c3_counterexample :
    loadFromJson (saveJson (applyOps opsBad).todos)
      ≠ Except.ok ((applyOps opsBad).todos.map embed) := by
  intro h
  have h1 : loadFromJson (saveJson (applyOps opsBad).todos)
      = Except.ok [TodoItemDyn.mk (JVal.str "a") (JVal.bool false) JVal.null] := rfl
  have h2 : Except.ok ((applyOps opsBad).todos.map embed)
      = (Except.ok [TodoItemDyn.mk (JVal.str "a") (JVal.bool false) (JVal.str "")] :
          Except PyError (List TodoItemDyn)) := rfl
  rw [h1, h2] at h
  have h3 : ([TodoItemDyn.mk (JVal.str "a") (JVal.bool false) JVal.null] :
      List TodoItemDyn) = [TodoItemDyn.mk (JVal.str "a") (JVal.bool false) (JVal.str "")] := by
    injection h
  have h4 : TodoItemDyn.mk (JVal.str "a") (JVal.bool false) JVal.null
      = TodoItemDyn.mk (JVal.str "a") (JVal.bool false) (JVal.str "") := by
    injection h3
  have h5 := congrArg TodoItemDyn.deadline h4
  exact JVal.noConfusion h5

/-- C3 amended: for every task list reachable through `add`/`edit`/`toggle`/
`delete` from a fresh empty store, `save()` followed by a fresh `load()`
reproduces the ordered task sequence up to the constructor's normalisation of
an empty-string deadline to `None`; the round trip is exactly identical
whenever no stored task carries the empty-string deadline (in particular
whenever every deadline passed to `edit` is `None` or non-empty). -/
theorem c3_roundtrip_amended :
    (∀ ops : List Op,
        loadFromJson (saveJson (applyOps ops).todos)
          = Except.ok ((applyOps ops).todos.map (fun t => embed (normalizeItem t))))
      ∧ (∀ ops : List Op, (∀ t ∈ (applyOps ops).todos, t.deadline ≠ some "") →
          loadFromJson (saveJson (applyOps ops).todos)
            = Except.ok ((applyOps ops).todos.map embed)) := by
  constructor
  · intro ops
    exact loadFromJson_saveJson _
  · intro ops hno
    rw [loadFromJson_saveJson]
    congr 1
    apply List.map_congr_left
    intro t ht
    rw [normalizeItem_of_ne_empty t (hno t ht)]

/-- C3 witness: a concrete reachable list exercising all four operations with
no empty-string deadline; the reloaded dynamic list is exactly the embedded
in-memory list. -/
theorem c3_witness :
    loadFromJson (saveJson (applyOps [Op.add "a" (some "2026-10-13"), Op.add "b" none,
        Op.toggle 0, Op.edit 1 "b2" (some "in 3 days"), Op.delete 5]).todos)
      = Except.ok ((applyOps [Op.add "a" (some "2026-10-13"), Op.add "b" none,
          Op.toggle 0, Op.edit 1 "b2" (some "in 3 days"), Op.delete 5]).todos.map embed) :=
  c3_roundtrip_amended.2 _ (by decide)

/- ### Claim C10 — deadlines surviving construction -/

/-- The property the claim asserts of every constructed deadline: it is
`None` or a non-empty string. -/
def isNoneOrNonemptyStr : JVal → Bool
  | JVal.null => true
  | JVal.str s => if s = "" then false else true
  | _ => false

/-- C10 counterexample: `TodoItem.from_dict` performs no type validation, so
a record whose `"deadline"` value is the (truthy) number 5 decodes to a task
whose deadline is 5 — neither `None` nor a non-empty string. -/
theorem c10_counterexample :
    from_dict (JVal.obj [("text", JVal.str "a"), ("done", JVal.bool false),
        ("deadline", JVal.num 5)])
      = Except.ok (TodoItemDyn.mk (JVal.str "a") (JVal.bool false) (JVal.num 5))
      ∧ isNoneOrNonemptyStr (JVal.num 5) = false :=
  ⟨rfl, rfl⟩

/-- The dynamic constructor can never produce the empty-string deadline:
the empty string is falsy, so it is replaced by `None`. -/
theorem makeDyn_deadline_ne_empty (t d v : JVal) :
    (TodoItemDyn.make t d v).deadline ≠ JVal.str "" := by
  simp only [TodoItemDyn.make]
  split
  · next h =>
    intro hv
    subst hv
    simp [pyTruthy] at h
  · intro hv
    exact JVal.noConfusion hv

/-- C10 amended: the constructor normalises every falsy deadline (absent or
empty string) to `None`, so an empty-string deadline never survives
construction: tasks built by `add` go through the constructor and have a
`None`-or-non-empty-string deadline for every argument; every task decoded by
`from_dict` is the constructor applied to the record's `deadline` field (or
null when absent), so its deadline is never the empty string, and it is
`None`-or-non-empty-string whenever that field is absent, null, or a string —
a non-string truthy JSON value, however, is stored unchanged. -/
theorem c10_deadline_amended :
    (∀ text done deadline, (TodoItem.make text done deadline).deadline ≠ some ""
        ∧ ((TodoItem.make text done deadline).deadline = none
            ∨ ∃ s, (TodoItem.make text done deadline).deadline = some s ∧ s ≠ ""))
      ∧ (∀ tl text deadline,
          (TodoList.add tl text deadline).1.todos
            = tl.todos ++ [TodoItem.make text false deadline])
      ∧ (∀ fields textV doneV, lookupLast fields "text" = some textV →
          lookupLast fields "done" = some doneV →
          from_dict (JVal.obj fields)
            = Except.ok (TodoItemDyn.make textV doneV
                ((lookupLast fields "deadline").getD JVal.null)))
      ∧ (∀ text done deadline, (TodoItemDyn.make text done deadline).deadline ≠ JVal.str "")
      ∧ (∀ text done deadline,
          (deadline = JVal.null ∨ ∃ s, deadline = JVal.str s) →
          isNoneOrNonemptyStr (TodoItemDyn.make text done deadline).deadline = true) := by
  refine ⟨?_, ?_, ?_, ?_, ?_⟩
  · intro text done deadline
    cases deadline with
    | none => exact ⟨by simp [TodoItem.make], Or.inl rfl⟩
    | some s =>
      by_cases hs : s = ""
      · subst hs
        exact ⟨by simp [TodoItem.make], Or.inl (by simp [TodoItem.make])⟩
      · exact ⟨by simp [TodoItem.make, hs], Or.inr ⟨s, by simp [TodoItem.make, hs], hs⟩⟩
  · intro tl text deadline
    rfl
  · intro fields textV doneV htext hdone
    simp [from_dict, htext, hdone]
  · intro text done deadline
    exact makeDyn_deadline_ne_empty text done deadline
  · intro text done deadline hshape
    rcases hshape with rfl | ⟨s, rfl⟩
    · simp [TodoItemDyn.make, pyTruthy, isNoneOrNonemptyStr]
    · by_cases hs : s = ""
      · subst hs
        simp [TodoItemDyn.make, pyTruthy, isNoneOrNonemptyStr]
      · simp [TodoItemDyn.make, pyTruthy, isNoneOrNonemptyStr, hs]

/-- C10 witness: the constructor drops a concrete empty-string deadline;
`from_dict` on a record with a null deadline is the constructor's output,
which satisfies the None-or-non-empty property. -/
theorem c10_witness :
    (TodoItem.make "a" false (some "")).deadline ≠ some ""
      ∧ (TodoList.add ⟨[], 0⟩ "a" (some "")).1.todos = [TodoItem.make "a" false (some "")]
      ∧ from_dict (JVal.obj [("text", JVal.str "t"), ("done", JVal.bool true),
            ("deadline", JVal.null)])
          = Except.ok (TodoItemDyn.make (JVal.str "t") (JVal.bool true) JVal.null)
      ∧ isNoneOrNonemptyStr
          (TodoItemDyn.make (JVal.str "t") (JVal.bool true) JVal.null).deadline = true := by
  refine ⟨(c10_deadline_amended.1 "a" false (some "")).1,
    c10_deadline_amended.2.1 ⟨[], 0⟩ "a" (some ""), ?_, ?_⟩
  · exact c10_deadline_amended.2.2.1
      [("text", JVal.str "t"), ("done", JVal.bool true), ("deadline", JVal.null)]
      (JVal.str "t") (JVal.bool true) rfl rfl
  · exact c10_deadline_amended.2.2.2.2 (JVal.str "t") (JVal.bool true) JVal.null (Or.inl rfl)

/- ### Zero-padded date strings (the claims quantify over all valid dates) -/

/-- The decimal digit character for `n < 10`. -/
def digitOf : Nat → Char
  | 0 => '0'
  | 1 => '1'
  | 2 => '2'
  | 3 => '3'
  | 4 => '4'
  | 5 => '5'
  | 6 => '6'
  | 7 => '7'
  | 8 => '8'
  | _ => '9'

/-- Two-digit zero-padded rendering of `n < 100`. -/
def chars2 (n : Nat) : List Char := [digitOf (n / 10), digitOf (n % 10)]

/-- Four-digit zero-padded rendering of `n < 10000`. -/
def chars4 (n : Nat) : List Char :=
  [digitOf (n / 1000), digitOf (n / 100 % 10), digitOf (n / 10 % 10), digitOf (n % 10)]

/-- The canonical zero-padded `YYYY-MM-DD` string for a date. -/
def formatYMD (y m d : Nat) : String :=
  String.mk (chars4 y ++ '-' :: (chars2 m ++ '-' :: chars2 d))

/-- The canonical zero-padded `MM-DD` string for a month and day. -/
def formatMD (m d : Nat) : String := String.mk (chars2 m ++ '-' :: chars2 d)

theorem digit_spec (n : Nat) (h : n < 10) :
    isDigitChar (digitOf n) = true ∧ digitVal (digitOf n) = n ∧ digitOf n ≠ '-' := by
  interval_cases n <;> refine ⟨by decide, by decide, by decide⟩

theorem parseDigits_chars2 (m : Nat) (h : m < 100) : parseDigits (chars2 m) = some m := by
  have h1 := digit_spec (m / 10) (by omega)
  have h2 := digit_spec (m % 10) (by omega)
  simp [chars2, parseDigits, parseDigitsAux, h1.1, h2.1, h1.2.1, h2.2.1]
  omega

theorem parseDigits_chars4 (n : Nat) (h : n < 10000) : parseDigits (chars4 n) = some n := by
  have h1 := digit_spec (n / 1000) (by omega)
  have h2 := digit_spec (n / 100 % 10) (by omega)
  have h3 := digit_spec (n / 10 % 10) (by omega)
  have h4 := digit_spec (n % 10) (by omega)
  simp [chars4, parseDigits, parseDigitsAux, h1.1, h2.1, h3.1, h4.1,
    h1.2.1, h2.2.1, h3.2.1, h4.2.1]
  omega

theorem chars2_not_mem_dash (m : Nat) (h : m < 100) : '-' ∉ chars2 m := by
  have h1 := digit_spec (m / 10) (by omega)
  have h2 := digit_spec (m % 10) (by omega)
  intro hmem
  rcases List.mem_cons.mp hmem with he | hmem2
  · exact h1.2.2 he.symm
  · rcases List.mem_cons.mp hmem2 with he | hmem3
    · exact h2.2.2 he.symm
    · simp at hmem3

theorem chars4_not_mem_dash (n : Nat) (h : n < 10000) : '-' ∉ chars4 n := by
  have h1 := digit_spec (n / 1000) (by omega)
  have h2 := digit_spec (n / 100 % 10) (by omega)
  have h3 := digit_spec (n / 10 % 10) (by omega)
  have h4 := digit_spec (n % 10) (by omega)
  intro hmem
  rcases List.mem_cons.mp hmem with he | hmem2
  · exact h1.2.2 he.symm
  rcases List.mem_cons.mp hmem2 with he | hmem3
  · exact h2.2.2 he.symm
  rcases List.mem_cons.mp hmem3 with he | hmem4
  · exact h3.2.2 he.symm
  rcases List.mem_cons.mp hmem4 with he | hmem5
  · exact h4.2.2 he.symm
  · simp at hmem5

theorem splitOnChar_no_sep (sep : Char) (l : List Char) (h : sep ∉ l) :
    splitOnChar sep l = [l] := by
  induction l with
  | nil => rfl
  | cons c cs ih =>
    have hc : ¬ c = sep := fun he => h (List.mem_cons.mpr (Or.inl he.symm))
    have htail : sep ∉ cs := fun hm => h (List.mem_cons.mpr (Or.inr hm))
    simp [splitOnChar, hc, ih htail]

theorem splitOnChar_append (sep : Char) (a b : List Char) (h : sep ∉ a) :
    splitOnChar sep (a ++ sep :: b) = a :: splitOnChar sep b := by
  induction a with
  | nil => simp [splitOnChar]
  | cons c cs ih =>
    have hc : ¬ c = sep := fun he => h (List.mem_cons.mpr (Or.inl he.symm))
    have htail : sep ∉ cs := fun hm => h (List.mem_cons.mpr (Or.inr hm))
    simp [splitOnChar, hc, ih htail]

theorem daysInMonth_le (y : Int) (m : Nat) : daysInMonth y m ≤ 31 := by
  unfold daysInMonth
  split
  · split <;> omega
  · split <;> omega

theorem ymdFromToks_some (ys ms ds : List Char) (y m d : Nat)
    (hy : parseDigits ys = some y) (hm : parseDigits ms = some m)
    (hd : parseDigits ds = some d) :
    ymdFromToks ys ms ds
      = if ys.length = 4 ∧ 1 ≤ y ∧ ms.length ≤ 2 ∧ 1 ≤ m ∧ m ≤ 12 ∧ ds.length ≤ 2 ∧
            1 ≤ d ∧ d ≤ 31 ∧ d ≤ daysInMonth (Int.ofNat y) m
        then some ⟨Int.ofNat y, m, d, 0⟩ else none := by
  unfold ymdFromToks
  rw [hy, hm, hd]

theorem mdFromToks_some (nowYear : Int) (ms ds : List Char) (m d : Nat)
    (hm : parseDigits ms = some m) (hd : parseDigits ds = some d) :
    mdFromToks nowYear ms ds
      = if ms.length ≤ 2 ∧ 1 ≤ m ∧ m ≤ 12 ∧ ds.length ≤ 2 ∧ 1 ≤ d ∧ d ≤ 31 ∧
            d ≤ daysInMonth 1900 m
        then some ⟨nowYear, m, d, 0⟩ else none := by
  unfold mdFromToks
  rw [hm, hd]

/-- Every zero-padded `YYYY-MM-DD` rendering of a calendar-valid date parses
to exactly that date (at midnight), whatever the current moment is. -/
theorem parse_formatYMD (now : DateTime) (y m d : Nat)
    (hy1 : 1 ≤ y) (hy2 : y ≤ 9999) (hm1 : 1 ≤ m) (hm2 : m ≤ 12)
    (hd1 : 1 ≤ d) (hd2 : d ≤ daysInMonth (Int.ofNat y) m) :
    parse_deadline now (some (formatYMD y m d)) = some ⟨Int.ofNat y, m, d, 0⟩ := by
  have hd31 : d ≤ 31 := le_trans hd2 (daysInMonth_le _ _)
  have hsplit : splitOnChar '-' (chars4 y ++ '-' :: (chars2 m ++ '-' :: chars2 d))
      = [chars4 y, chars2 m, chars2 d] := by
    rw [splitOnChar_append '-' _ _ (chars4_not_mem_dash y (by omega)),
        splitOnChar_append '-' _ _ (chars2_not_mem_dash m (by omega)),
        splitOnChar_no_sep '-' _ (chars2_not_mem_dash d (by omega))]
  have hymd : parseYMD (chars4 y ++ '-' :: (chars2 m ++ '-' :: chars2 d))
      = some ⟨Int.ofNat y, m, d, 0⟩ := by
    unfold parseYMD
    rw [hsplit]
    show ymdFromToks (chars4 y) (chars2 m) (chars2 d) = _
    rw [ymdFromToks_some _ _ _ y m d (parseDigits_chars4 y (by omega))
        (parseDigits_chars2 m (by omega)) (parseDigits_chars2 d (by omega))]
    rw [if_pos]
    exact ⟨rfl, hy1, le_refl 2, hm1, hm2, le_refl 2, hd1,
      le_trans hd2 (daysInMonth_le _ _), hd2⟩
  have hdata : (formatYMD y m d).data = chars4 y ++ '-' :: (chars2 m ++ '-' :: chars2 d) := rfl
  simp only [parse_deadline]
  rw [hdata, if_neg (by simp [chars4]), hymd]

/-- Every zero-padded `MM-DD` rendering of a month-day valid in year 1900
parses to that month and day in the current year (at midnight). -/
theorem parse_formatMD (now : DateTime) (m d : Nat)
    (hm1 : 1 ≤ m) (hm2 : m ≤ 12) (hd1 : 1 ≤ d) (hd2 : d ≤ daysInMonth 1900 m) :
    parse_deadline now (some (formatMD m d)) = some ⟨now.year, m, d, 0⟩ := by
  have hd31 : d ≤ 31 := le_trans hd2 (daysInMonth_le _ _)
  have hsplit : splitOnChar '-' (chars2 m ++ '-' :: chars2 d) = [chars2 m, chars2 d] := by
    rw [splitOnChar_append '-' _ _ (chars2_not_mem_dash m (by omega)),
        splitOnChar_no_sep '-' _ (chars2_not_mem_dash d (by omega))]
  have hymd : parseYMD (chars2 m ++ '-' :: chars2 d) = none := by
    unfold parseYMD
    rw [hsplit]
  have hmd : parseMD now.year (chars2 m ++ '-' :: chars2 d) = some ⟨now.year, m, d, 0⟩ := by
    unfold parseMD
    rw [hsplit]
    show mdFromToks now.year (chars2 m) (chars2 d) = _
    rw [mdFromToks_some _ _ _ m d (parseDigits_chars2 m (by omega))
        (parseDigits_chars2 d (by omega))]
    rw [if_pos]
    exact ⟨le_refl 2, hm1, hm2, le_refl 2, hd1, le_trans hd2 (daysInMonth_le _ _), hd2⟩
  have hdata : (formatMD m d).data = chars2 m ++ '-' :: chars2 d := rfl
  simp only [parse_deadline]
  rw [hdata, if_neg (by simp [chars2]), hymd, hmd]

/- ### Claim C4 — parse_deadline contract -/

/-- C4 counterexample: the `"in <N> days"` branch never checks the suffix and
accepts any Python integer literal (negative included) as `<N>`, so both
`"in -3 days"` and `"in 5 weeks"` — which the claim places among the strings
that must yield `None` — parse successfully. -/
theorem c4_counterexample :
    parse_deadline now0 (some "in -3 days") = some (addDays now0 (-3))
      ∧ parse_deadline now0 (some "in 5 weeks") = some (addDays now0 5)
      ∧ parse_deadline now0 (some "in -3 days") ≠ none
      ∧ parse_deadline now0 (some "in 5 weeks") ≠ none :=
  ⟨rfl, rfl, by decide, by decide⟩

/-- C4 amended: every valid zero-padded `YYYY-MM-DD` string parses to a
timestamp with exactly the written year, month and day; strings matching none
of the three grammars — the empty string and `"in abc days"` included —
yield `None` without raising; but the third grammar actually accepted is
`"in <tok> ..."` where only the first whitespace token after `"in "` must be
a Python integer literal (sign allowed, suffix ignored), so `"in -3 days"`
parses to now - 3 days and `"in 5 weeks"` to now + 5 days. -/
theorem c4_parse_amended :
    (∀ (now : DateTime) (y m d : Nat),
        1 ≤ y → y ≤ 9999 → 1 ≤ m → m ≤ 12 → 1 ≤ d → d ≤ daysInMonth (Int.ofNat y) m →
        parse_deadline now (some (formatYMD y m d)) = some ⟨Int.ofNat y, m, d, 0⟩)
      ∧ (∀ now : DateTime,
          parse_deadline now none = none
            ∧ parse_deadline now (some "") = none
            ∧ parse_deadline now (some "in abc days") = none
            ∧ parse_deadline now (some "tomorrow") = none
            ∧ parse_deadline now (some "in -3 days") = some (addDays now (-3))
            ∧ parse_deadline now (some "in 5 weeks") = some (addDays now 5)) :=
  ⟨fun now y m d h1 h2 h3 h4 h5 h6 => parse_formatYMD now y m d h1 h2 h3 h4 h5 h6,
   fun _ => ⟨rfl, rfl, rfl, rfl, rfl, rfl⟩⟩

/-- C4 witness: the formatted date 2026-10-13 parses to its own components;
the hypotheses (calendar validity) are discharged by evaluation. -/
theorem c4_witness :
    parse_deadline now0 (some (formatYMD 2026 10 13)) = some ⟨2026, 10, 13, 0⟩ :=
  c4_parse_amended.1 now0 2026 10 13 (by decide) (by decide) (by decide) (by decide)
    (by decide) (by decide)

/- ### Claim C9 — MM-DD strings -/

/-- C9 counterexample: 2024 is a leap year, so `02-29` is a valid calendar
date in current year 2024, yet `parse_deadline` returns `None`: the `%m-%d`
strptime call validates the day against its default year 1900 (not a leap
year) before `.replace(year = now.year)` ever runs. -/
theorem c9_counterexample :
    daysInMonth 2024 2 = 29
      ∧ parse_deadline ⟨2024, 1, 1, 0⟩ (some "02-29") = none
      ∧ parse_deadline ⟨2024, 1, 1, 0⟩ (some (formatMD 2 29)) = none := by
  refine ⟨by decide, by decide, by decide⟩

/-- C9 amended: every zero-padded `MM-DD` string naming a month-day that is a
valid date in year 1900 — that is, every valid month-day combination except
February 29 — parses to a timestamp with that month and day and with the
current year at parse time.  February 29 is rejected even when the current
year is a leap year. -/
theorem c9_md_amended (now : DateTime) (m d : Nat)
    (hm1 : 1 ≤ m) (hm2 : m ≤ 12) (hd1 : 1 ≤ d) (hd2 : d ≤ daysInMonth 1900 m) :
    parse_deadline now (some (formatMD m d)) = some ⟨now.year, m, d, 0⟩ :=
  parse_formatMD now m d hm1 hm2 hd1 hd2

/-- C9 witness: `12-31` parsed at `now0` (year 2026) gives 2026-12-31. -/
theorem c9_witness :
    parse_deadline now0 (some (formatMD 12 31)) = some ⟨2026, 12, 31, 0⟩ :=
  c9_md_amended now0 12 31 (by decide) (by decide) (by decide) (by decide)
